import Mathlib

/-!
# Verification of the SQLite-backed job storage (apalis-sql)

Shallow embedding of `src/packages/apalis-sql/src/sqlite.rs`.

The two tables created by `setup` are modelled as lists of rows:
`Jobs` as `List JobRow` and `Workers` as `List WorkerRow`.  SQLite's
implicit `rowid` (the monotone insertion-order surrogate used by the
candidate-selection query's `min(rowid)`) is carried as an explicit
field.  TEXT columns are `String`, INTEGER timestamps are `Int`,
nullable columns are `Option`.  Each SQL statement of the source file
becomes a pure function on these lists.
-/

namespace Apalis

/-- One row of the `Jobs` table, columns exactly as in the `setup` DDL,
plus SQLite's implicit `rowid`. -/
structure JobRow where
  job : String
  id : String
  job_type : String
  status : String
  attempts : Int
  max_attempts : Int
  run_at : Int
  last_error : Option String
  lock_at : Option Int
  lock_by : Option String
  done_at : Option Int
  rowid : Nat
deriving Repr, DecidableEq

/-- One row of the `Workers` table, columns as in the `setup` DDL.  Note
that the DDL declares no PRIMARY KEY and no UNIQUE constraint on any
column (only plain non-unique indexes are created). -/
structure WorkerRow where
  id : String
  worker_type : String
  storage_name : String
  last_seen : Int
deriving Repr, DecidableEq

/-- The WHERE predicate of the candidate-selection query in
`stream_jobs`:

`status = 'Pending' OR (status = 'Failed' AND attempts < max_attempts)
 AND run_at < ?1 AND job_type = ?2`

with `?1 = now`, `?2 = T::NAME`.  SQL gives AND precedence over OR, so
the `run_at` and `job_type` conjuncts attach only to the Failed
disjunct. -/
def fetchPredicate (now : Int) (jobType : String) (j : JobRow) : Bool :=
  decide (j.status = "Pending" ∨
    (j.status = "Failed" ∧ j.attempts < j.max_attempts ∧
      j.run_at < now ∧ j.job_type = jobType))

/-- The SQL aggregate `min(rowid)` over a list of job rows. -/
def minRowid? : List JobRow → Option Nat
  | [] => none
  | j :: js =>
    match minRowid? js with
    | none => some j.rowid
    | some m => some (min j.rowid m)

/-- The candidate-selection query of `stream_jobs`:
`SELECT * FROM Jobs WHERE rowid = (SELECT min(rowid) FROM Jobs WHERE …)`.
If no row matches the inner predicate, `min(rowid)` is NULL and no row
is returned. -/
def selectCandidate (db : List JobRow) (now : Int) (jobType : String) :
    Option JobRow :=
  match minRowid? (db.filter (fetchPredicate now jobType)) with
  | none => none
  | some r => db.find? (fun j => decide (j.rowid = r))

/-- Per-row effect of the conditional-claim UPDATE in `fetch_next`:
`UPDATE Jobs SET status = 'Running', lock_by = ?2
 WHERE id = ?1 AND status = 'Pending' AND lock_by IS NULL`. -/
def claimRow (jobId workerId : String) (j : JobRow) : JobRow :=
  if j.id = jobId ∧ j.status = "Pending" ∧ j.lock_by = none then
    { j with status := "Running", lock_by := some workerId }
  else j

/-- The conditional-claim UPDATE of `fetch_next` applied to the table. -/
def claimUpdate (db : List JobRow) (jobId workerId : String) : List JobRow :=
  db.map (claimRow jobId workerId)

/-- `fetch_next`: given the candidate row (or none), run the conditional
claim UPDATE and then re-read with
`SELECT * FROM Jobs WHERE id = ?1 AND lock_by = ?2`.
Returns the table after the update together with the row the SELECT
yields. -/
def fetch_next (db : List JobRow) (workerId : String) (job : Option JobRow) :
    List JobRow × Option JobRow :=
  match job with
  | none => (db, none)
  | some j =>
    let db2 := claimUpdate db j.id workerId
    (db2, db2.find? (fun r => decide (r.id = j.id ∧ r.lock_by = some workerId)))

/-- One tick of the `stream_jobs` polling loop: candidate selection
followed by `fetch_next`. -/
def streamTick (db : List JobRow) (workerId : String) (now : Int)
    (jobType : String) : List JobRow × Option JobRow :=
  fetch_next db workerId (selectCandidate db now jobType)

/-- SQLite `ORDER BY … ASC` comparison on a nullable INTEGER column:
NULL sorts before every value. -/
def lockAtLe : Option Int → Option Int → Bool
  | none, _ => true
  | some _, none => false
  | some a, some b => decide (a ≤ b)

/-- Insertion step of the sort modelling `ORDER BY`. -/
def insertSorted (le : α → α → Bool) (a : α) : List α → List α
  | [] => [a]
  | b :: l => if le a b then a :: b :: l else b :: insertSorted le a l

/-- Stable insertion sort modelling `ORDER BY` (SQL fixes only the key
order; ties are unspecified, and none of the properties below depend on
tie order). -/
def sortBy (le : α → α → Bool) : List α → List α
  | [] => []
  | a :: l => insertSorted le a (sortBy le l)

/-- Row filter of the `EnqueueScheduled` sweep's subquery:
`status = "Failed" AND Jobs.attempts < Jobs.max_attempts`.  The SQL text
contains no condition on `job_type`: the bound `?1` parameter (the job
type) is never referenced in the query. -/
def scheduledEligible (j : JobRow) : Bool :=
  decide (j.status = "Failed" ∧ j.attempts < j.max_attempts)

/-- Ids selected by the `EnqueueScheduled` subquery:
`SELECT Jobs.id FROM Jobs WHERE … ORDER BY lock_at ASC LIMIT ?2`. -/
def scheduledIds (db : List JobRow) (count : Nat) : List String :=
  ((sortBy (fun a b => lockAtLe a.lock_at b.lock_at)
      (db.filter scheduledEligible)).take count).map (fun j => j.id)

/-- SET clause of the `EnqueueScheduled` sweep:
`status = "Pending", done_at = NULL, lock_by = NULL, lock_at = NULL`. -/
def resetScheduled (j : JobRow) : JobRow :=
  { j with status := "Pending", done_at := none, lock_by := none,
           lock_at := none }

/-- `heartbeat(WorkerPulse::EnqueueScheduled { count })`.  The source
binds `T::NAME` as parameter `?1`, but the SQL references only `?2`
(the LIMIT), so `jobType` has no effect on the result. -/
def heartbeatEnqueueScheduled (jobType : String) (db : List JobRow)
    (count : Nat) : List JobRow :=
  db.map (fun j => if j.id ∈ scheduledIds db count then resetScheduled j else j)

/-- All (job, worker) pairs of the cross product underlying
`Jobs INNER JOIN Workers`. -/
def joinRows : List JobRow → List WorkerRow → List (JobRow × WorkerRow)
  | [], _ => []
  | j :: js, ws => ws.map (fun w => (j, w)) ++ joinRows js ws

/-- Join/filter condition of the `RenqueueOrpharned` sweep's subquery:
`ON lock_by = Workers.id WHERE status = "Running" AND
 workers.last_seen < ?1 AND Workers.worker_type = ?2`. -/
def orphanEligible (cutoff : Int) (workerType : String)
    (p : JobRow × WorkerRow) : Bool :=
  decide (p.1.lock_by = some p.2.id ∧ p.1.status = "Running" ∧
    p.2.last_seen < cutoff ∧ p.2.worker_type = workerType)

/-- The filtered join of the `RenqueueOrpharned` subquery. -/
def orphanJoin (db : List JobRow) (workers : List WorkerRow) (cutoff : Int)
    (workerType : String) : List (JobRow × WorkerRow) :=
  (joinRows db workers).filter (orphanEligible cutoff workerType)

/-- Ids selected by the `RenqueueOrpharned` subquery, ordered by the
job's `lock_at`, limited to `count`.  The cutoff bound as `?1` is
`Utc::now() - 5 minutes`, i.e. `now - 300` seconds. -/
def reclaimIds (db : List JobRow) (workers : List WorkerRow) (now : Int)
    (workerType : String) (count : Nat) : List String :=
  ((sortBy (fun a b => lockAtLe a.1.lock_at b.1.lock_at)
      (orphanJoin db workers (now - 300) workerType)).take count).map
    (fun p => p.1.id)

/-- SET clause of the `RenqueueOrpharned` sweep: `status = "Pending",
done_at = NULL, lock_by = NULL, lock_at = NULL,
last_error = "Job was abandoned"`.  `attempts` is not touched. -/
def resetOrphan (j : JobRow) : JobRow :=
  { j with status := "Pending", done_at := none, lock_by := none,
           lock_at := none, last_error := some "Job was abandoned" }

/-- `heartbeat(WorkerPulse::RenqueueOrpharned { count })`. -/
def heartbeatRenqueueOrphaned (db : List JobRow) (workers : List WorkerRow)
    (now : Int) (workerType : String) (count : Nat) : List JobRow :=
  db.map (fun j =>
    if j.id ∈ reclaimIds db workers now workerType count then resetOrphan j
    else j)

/-- Per-row effect of `kill`:
`UPDATE Jobs SET status = 'Kill', done_at = strftime('%s','now')
 WHERE id = ?1 AND lock_by = ?2`.  The stored status literal is
`'Kill'`. -/
def killRow (workerId jobId : String) (now : Int) (j : JobRow) : JobRow :=
  if j.id = jobId ∧ j.lock_by = some workerId then
    { j with status := "Kill", done_at := some now }
  else j

/-- `kill(worker_id, job_id)` applied to the table. -/
def kill (db : List JobRow) (workerId jobId : String) (now : Int) :
    List JobRow :=
  db.map (killRow workerId jobId now)

/-- Per-row effect of `retry`:
`UPDATE Jobs SET status = 'Pending', done_at = NULL, lock_by = NULL
 WHERE id = ?1 AND lock_by = ?2`. -/
def retryRow (workerId jobId : String) (j : JobRow) : JobRow :=
  if j.id = jobId ∧ j.lock_by = some workerId then
    { j with status := "Pending", done_at := none, lock_by := none }
  else j

/-- `retry(worker_id, job_id)` applied to the table. -/
def retry (db : List JobRow) (workerId jobId : String) : List JobRow :=
  db.map (retryRow workerId jobId)

/-- Per-row effect of `ack`:
`UPDATE Jobs SET status = 'Done', done_at = strftime('%s','now')
 WHERE id = ?1 AND lock_by = ?2`. -/
def ackRow (workerId jobId : String) (now : Int) (j : JobRow) : JobRow :=
  if j.id = jobId ∧ j.lock_by = some workerId then
    { j with status := "Done", done_at := some now }
  else j

/-- `ack(worker_id, job_id)` applied to the table. -/
def ack (db : List JobRow) (workerId jobId : String) (now : Int) :
    List JobRow :=
  db.map (ackRow workerId jobId now)

/-- Per-row effect of `reschedule`:
`UPDATE Jobs SET status = 'Failed', done_at = NULL, lock_by = NULL,
 lock_at = NULL, run_at = ?2 WHERE id = ?1`, with
`?2 = now + wait` (the `Duration` is a non-negative number of
seconds). -/
def rescheduleRow (jobId : String) (now : Int) (wait : Nat) (j : JobRow) :
    JobRow :=
  if j.id = jobId then
    { j with status := "Failed", done_at := none, lock_by := none,
             lock_at := none, run_at := now + wait }
  else j

/-- `reschedule(job, wait)` applied to the table. -/
def reschedule (db : List JobRow) (jobId : String) (now : Int) (wait : Nat) :
    List JobRow :=
  db.map (rescheduleRow jobId now wait)

/-- `len`: `SELECT Count(*) FROM Jobs WHERE status = 'Pending'`.
The query contains no condition on `job_type`. -/
def len (db : List JobRow) : Nat :=
  (db.filter (fun j => decide (j.status = "Pending"))).length

/-- `keep_alive(worker_id)`:
`INSERT OR REPLACE INTO Workers (id, worker_type, storage_name,
 last_seen) VALUES (?1, ?2, ?3, ?4)` with `?4 = now`.  Because the
`Workers` DDL in `setup` declares no PRIMARY KEY or UNIQUE constraint,
`INSERT OR REPLACE` can never hit a uniqueness conflict, so in SQLite
it unconditionally appends a fresh row. -/
def keep_alive (workers : List WorkerRow)
    (workerId workerType storageName : String) (now : Int) :
    List WorkerRow :=
  workers ++ [⟨workerId, workerType, storageName, now⟩]

/-- Modelled from the spec: the job status enum of the data model,
`enum {Pending, Running, Done, Failed, Killed}` (the `JobState` type
lives in apalis-core, outside the sources here).  Stored TEXT values of
the members are their names, matching the literals the queries of this
file use for Pending, Running, Done and Failed. -/
inductive JobState
  | Pending
  | Running
  | Done
  | Failed
  | Killed
deriving Repr, DecidableEq, Fintype

/-- Modelled from the spec: the TEXT representation of each status enum
member. -/
def JobState.asStr : JobState → String
  | .Pending => "Pending"
  | .Running => "Running"
  | .Done => "Done"
  | .Failed => "Failed"
  | .Killed => "Killed"

/-- Written from the spec's words, for refinement comparison only:
`count_pending(job_type)` / `len(job_type) -> pending count` — the
number of Pending jobs of the given type. -/
def specCountPending (db : List JobRow) (jobType : String) : Nat :=
  (db.filter
    (fun j => decide (j.status = "Pending" ∧ j.job_type = jobType))).length

/-! ## Concrete fixtures used in counterexamples and witnesses -/

/-- Fixture: a Pending job whose `job_type` is `"sms"` and whose
`run_at` lies in the future of the poll instant `1000` used below. -/
def jobWrongType : JobRow :=
  { job := "p", id := "j1", job_type := "sms", status := "Pending",
    attempts := 0, max_attempts := 25, run_at := 2000, last_error := none,
    lock_at := none, lock_by := none, done_at := none, rowid := 1 }

/-- Fixture: a freshly pushed Pending job of type `"email"`. -/
def jobPending : JobRow :=
  { job := "p", id := "j1", job_type := "email", status := "Pending",
    attempts := 0, max_attempts := 25, run_at := 10, last_error := none,
    lock_at := none, lock_by := none, done_at := none, rowid := 1 }

/-- Fixture: a Failed, retryable job of type `"sms"`. -/
def jobSmsFailed : JobRow :=
  { job := "p", id := "s1", job_type := "sms", status := "Failed",
    attempts := 1, max_attempts := 25, run_at := 0, last_error := none,
    lock_at := some 50, lock_by := none, done_at := none, rowid := 3 }

/-- Fixture: a Running job locked by the stale worker `"wStale"`. -/
def jobOrphan : JobRow :=
  { job := "p", id := "o1", job_type := "email", status := "Running",
    attempts := 0, max_attempts := 25, run_at := 10, last_error := none,
    lock_at := some 400, lock_by := some "wStale", done_at := none,
    rowid := 4 }

/-- Fixture: a Running job locked by the live worker `"wFresh"`. -/
def jobFresh : JobRow :=
  { job := "p", id := "o2", job_type := "email", status := "Running",
    attempts := 0, max_attempts := 25, run_at := 10, last_error := none,
    lock_at := some 450, lock_by := some "wFresh", done_at := none,
    rowid := 5 }

/-- Fixture: a worker last seen at time 100 (stale at `now = 1000`,
whose 5-minute cutoff is 700). -/
def workerStale : WorkerRow := ⟨"wStale", "email", "sqlite", 100⟩

/-- Fixture: a worker last seen at time 940 = `now - 60` (one minute
before `now = 1000`). -/
def workerFresh : WorkerRow := ⟨"wFresh", "email", "sqlite", 940⟩

/-- Fixture: a Running job locked by worker `"w1"`. -/
def jobOwned : JobRow :=
  { job := "p", id := "j9", job_type := "email", status := "Running",
    attempts := 0, max_attempts := 25, run_at := 10, last_error := none,
    lock_at := none, lock_by := some "w1", done_at := none, rowid := 6 }

/-- Fixture: a Running job locked by worker `"other"`. -/
def jobOther : JobRow :=
  { job := "p", id := "j6", job_type := "email", status := "Running",
    attempts := 0, max_attempts := 25, run_at := 10, last_error := none,
    lock_at := none, lock_by := some "other", done_at := none, rowid := 7 }

/-- Fixture: a Pending job of type `"sms"`. -/
def jobSmsPending : JobRow :=
  { job := "p", id := "p1", job_type := "sms", status := "Pending",
    attempts := 0, max_attempts := 25, run_at := 0, last_error := none,
    lock_at := none, lock_by := none, done_at := none, rowid := 8 }

/-! ## Helper lemmas -/

theorem mem_insertSorted {le : α → α → Bool} {a x : α} {l : List α} :
    x ∈ insertSorted le a l ↔ x = a ∨ x ∈ l := by
  induction l with
  | nil => simp [insertSorted]
  | cons b l ih =>
    simp only [insertSorted]
    split
    · simp
    · simp only [List.mem_cons, ih]
      tauto

theorem mem_sortBy {le : α → α → Bool} {x : α} {l : List α} :
    x ∈ sortBy le l ↔ x ∈ l := by
  induction l with
  | nil => simp [sortBy]
  | cons a l ih => simp [sortBy, mem_insertSorted, ih]

theorem length_insertSorted (le : α → α → Bool) (a : α) (l : List α) :
    (insertSorted le a l).length = l.length + 1 := by
  induction l with
  | nil => simp [insertSorted]
  | cons b l ih =>
    simp only [insertSorted]
    split
    · simp
    · simp [ih]

theorem length_sortBy (le : α → α → Bool) (l : List α) :
    (sortBy le l).length = l.length := by
  induction l with
  | nil => simp [sortBy]
  | cons a l ih => simp [sortBy, length_insertSorted, ih]

theorem mem_joinRows {db : List JobRow} {ws : List WorkerRow} {j : JobRow}
    {w : WorkerRow} : (j, w) ∈ joinRows db ws ↔ j ∈ db ∧ w ∈ ws := by
  induction db with
  | nil => simp [joinRows]
  | cons j0 js ih =>
    simp only [joinRows, List.mem_append, List.mem_map, List.mem_cons, ih,
      Prod.mk.injEq]
    constructor
    · rintro (⟨w', hw', h1, h2⟩ | ⟨h1, h2⟩)
      · exact ⟨Or.inl h1.symm, h2 ▸ hw'⟩
      · exact ⟨Or.inr h1, h2⟩
    · rintro ⟨h1 | h1, h2⟩
      · exact Or.inl ⟨w, h2, h1.symm, rfl⟩
      · exact Or.inr ⟨h1, h2⟩

theorem minRowid_mem : ∀ {l : List JobRow} {r : Nat},
    minRowid? l = some r → ∃ j ∈ l, j.rowid = r := by
  intro l
  induction l with
  | nil => intro r h; simp [minRowid?] at h
  | cons j js ih =>
    intro r h
    unfold minRowid? at h
    cases hm : minRowid? js with
    | none =>
      rw [hm] at h
      exact ⟨j, by simp, Option.some.inj h⟩
    | some m =>
      rw [hm] at h
      have h := Option.some.inj h
      rcases min_cases j.rowid m with ⟨hmin, _⟩ | ⟨hmin, _⟩
      · exact ⟨j, by simp, by omega⟩
      · obtain ⟨jf, hjf, hr⟩ := ih hm
        exact ⟨jf, by simp [hjf], by omega⟩

/-- Any row returned by the candidate-selection query satisfies the
query's WHERE predicate, provided rowids are unique (SQLite guarantees
rowid uniqueness within a table). -/
theorem selectCandidate_sound {db : List JobRow} {now : Int} {T : String}
    {j : JobRow} (hrow : (db.map (fun x => x.rowid)).Nodup)
    (h : selectCandidate db now T = some j) :
    j ∈ db ∧ fetchPredicate now T j = true := by
  unfold selectCandidate at h
  cases hm : minRowid? (db.filter (fetchPredicate now T)) with
  | none => rw [hm] at h; cases h
  | some r =>
    rw [hm] at h
    have hjdb : j ∈ db := List.mem_of_find?_eq_some h
    have hjr : j.rowid = r := by simpa using List.find?_some h
    obtain ⟨jf, hjf, hjfr⟩ := minRowid_mem hm
    have hjf_db : jf ∈ db := (List.mem_filter.mp hjf).1
    have hpred : fetchPredicate now T jf = true := (List.mem_filter.mp hjf).2
    have hjeq : j = jf :=
      List.inj_on_of_nodup_map hrow hjdb hjf_db (by rw [hjr, hjfr])
    exact ⟨hjdb, hjeq ▸ hpred⟩

/-! ## Claim theorems -/

/-- Claim C1: the candidate-selection predicate is claimed to be fully
grouped — `(Pending OR (Failed AND attempts < max)) AND run_at ≤ now AND
job_type = T` — so a selected job always satisfies the `run_at` and
`job_type` conditions.  The code violates this: SQL operator precedence
attaches the `run_at` and `job_type` conjuncts only to the Failed
disjunct, so at poll instant 1000 a Pending job of type `"sms"` with
`run_at = 2000` is selected as the candidate for an `"email"` worker. -/
theorem C1_candidate_predicate_bug :
    selectCandidate [jobWrongType] 1000 "email" = some jobWrongType ∧
      jobWrongType.status = "Pending" ∧
      jobWrongType.job_type ≠ "email" ∧
      ¬ jobWrongType.run_at ≤ 1000 := by decide

/-- Claim C4: the `EnqueueScheduled` sweep is claimed never to reset a
Failed job of a different `job_type`.  The code violates this: the
bound job-type parameter is never referenced in the SQL, so a sweep for
type `"email"` with `count = 1` resets a Failed retryable job of type
`"sms"` to Pending. -/
theorem C4_enqueue_scheduled_ignores_type :
    heartbeatEnqueueScheduled "email" [jobSmsFailed] 1 =
      [resetScheduled jobSmsFailed] ∧
    jobSmsFailed.job_type ≠ "email" ∧
    jobSmsFailed.status = "Failed" ∧
    jobSmsFailed.attempts < jobSmsFailed.max_attempts ∧
    (resetScheduled jobSmsFailed).status = "Pending" := by decide

/-- Claim C5: heartbeat/`keep_alive` is claimed to upsert the Worker row
keyed on worker id, leaving at most one row per id.  The code violates
this: the Workers DDL declares no PRIMARY KEY or UNIQUE constraint, so
`INSERT OR REPLACE` never replaces, and two heartbeats for `"w1"` (at
times 100 and 200) leave two rows for that id. -/
theorem C5_keep_alive_accumulates :
    keep_alive (keep_alive [] "w1" "email" "sqlite" 100)
        "w1" "email" "sqlite" 200 =
      [⟨"w1", "email", "sqlite", 100⟩, ⟨"w1", "email", "sqlite", 200⟩] ∧
    ((keep_alive (keep_alive [] "w1" "email" "sqlite" 100)
          "w1" "email" "sqlite" 200).filter
        (fun w => decide (w.id = "w1"))).length = 2 := by decide

/-- Claim C8 (counterexample): `len(job_type)` is claimed to count only
Pending jobs of the given type.  At the concrete table holding one
Pending job of type `"sms"`, `len` for an `"email"` storage returns 1
while the spec-side per-type pending count returns 0: jobs of other
job_types do contribute. -/
theorem C8_len_counts_other_types :
    len [jobSmsPending] = 1 ∧ specCountPending [jobSmsPending] "email" = 0 ∧
      jobSmsPending.job_type = "sms" := by decide

/-- Claim C9: `kill` is claimed to store the `Killed` member of the
status enum `{Pending, Running, Done, Failed, Killed}`.  The code's
UPDATE guards on ownership and sets `done_at = now` as claimed, but
stores the literal `'Kill'`, which is not the TEXT form of any enum
member (`Killed` is stored as `"Killed"`). -/
theorem C9_kill_stores_Kill :
    kill [jobOwned] "w1" "j9" 500 =
      [{ jobOwned with status := "Kill", done_at := some 500 }] ∧
    (∀ s : JobState, s.asStr ≠ "Kill") ∧
    JobState.Killed.asStr = "Killed" := by decide

/-- Claim C10: the conditional-claim UPDATE of `fetch_next` mutates only
the `status` and `lock_by` columns of a row; every other column —
`lock_at` in particular — is unchanged, so a job whose `lock_at` was
NULL keeps `lock_at = NULL` while Running. -/
theorem C10_claim_frame (jobId workerId : String) (j : JobRow) :
    (claimRow jobId workerId j).job = j.job ∧
    (claimRow jobId workerId j).id = j.id ∧
    (claimRow jobId workerId j).job_type = j.job_type ∧
    (claimRow jobId workerId j).attempts = j.attempts ∧
    (claimRow jobId workerId j).max_attempts = j.max_attempts ∧
    (claimRow jobId workerId j).run_at = j.run_at ∧
    (claimRow jobId workerId j).last_error = j.last_error ∧
    (claimRow jobId workerId j).lock_at = j.lock_at ∧
    (claimRow jobId workerId j).done_at = j.done_at ∧
    (claimRow jobId workerId j).rowid = j.rowid ∧
    (∀ db : List JobRow,
      (fetch_next db workerId (some j)).1 = claimUpdate db j.id workerId) := by
  unfold claimRow
  split
  · exact ⟨rfl, rfl, rfl, rfl, rfl, rfl, rfl, rfl, rfl, rfl, fun _ => rfl⟩
  · exact ⟨rfl, rfl, rfl, rfl, rfl, rfl, rfl, rfl, rfl, rfl, fun _ => rfl⟩

/-- Claim C2 (counterexample): the claim says that once one worker's
claim has succeeded, every further claim attempt on that id yields
'nothing claimed' until the job returns to Pending.  Concretely: worker
`"A"` claims the Pending job `jobPending` (first conjunct: the claim
succeeds and the row transitions); the job is still Running, yet a
further `fetch_next` attempt on the same id by `"A"` returns the row
again (second conjunct), not 'nothing claimed' — the trailing SELECT
`WHERE id = ?1 AND lock_by = ?2` matches the claimant's own lock. -/
theorem C2_rereads_own_claim :
    (fetch_next [jobPending] "A" (some jobPending)).2 =
      some { jobPending with status := "Running", lock_by := some "A" } ∧
    (fetch_next (fetch_next [jobPending] "A" (some jobPending)).1 "A"
        (some jobPending)).2 ≠ none := by decide

/-- Claim C2 (amended): the conditional-claim UPDATE transitions a row
(to Running with `lock_by = worker`) only if the row's current status
is Pending and `lock_by` is NULL; once any claim has succeeded, a
further claim attempt by a *different* worker matches no row, leaves
the table unchanged and yields 'nothing claimed'; a further attempt by
the owning worker also updates no row — a second claim UPDATE after any
claim UPDATE is the identity, so at most one Pending→Running transition
occurs per claim cycle — but its re-read returns the already-owned
row. -/
theorem C2_claim_once :
    (∀ (jobId w : String) (j : JobRow), claimRow jobId w j ≠ j →
      j.id = jobId ∧ j.status = "Pending" ∧ j.lock_by = none ∧
        claimRow jobId w j =
          { j with status := "Running", lock_by := some w }) ∧
    (∀ (db : List JobRow) (jobId w1 w2 : String) (j0 : JobRow),
      j0.id = jobId → w2 ≠ w1 →
      (∀ j ∈ db, j.id = jobId → j.status ≠ "Pending" ∧ j.lock_by = some w1) →
      fetch_next db w2 (some j0) = (db, none)) ∧
    (∀ (db : List JobRow) (jobId w w' : String),
      claimUpdate (claimUpdate db jobId w) jobId w' =
        claimUpdate db jobId w) := by
  refine ⟨?_, ?_, ?_⟩
  · intro jobId w j hne
    by_cases h : j.id = jobId ∧ j.status = "Pending" ∧ j.lock_by = none
    · refine ⟨h.1, h.2.1, h.2.2, ?_⟩
      unfold claimRow
      rw [if_pos h]
    · exfalso
      apply hne
      unfold claimRow
      rw [if_neg h]
  · intro db jobId w1 w2 j0 hid hw hall
    have h1 : claimUpdate db j0.id w2 = db := by
      unfold claimUpdate
      have hfix : ∀ j ∈ db, claimRow j0.id w2 j = id j := by
        intro j hj
        show claimRow j0.id w2 j = j
        unfold claimRow
        rw [if_neg]
        rintro ⟨hjid, hjstat, _⟩
        exact (hall j hj (hid ▸ hjid)).1 hjstat
      rw [List.map_congr_left hfix, List.map_id]
    have h2 : db.find?
        (fun r => decide (r.id = j0.id ∧ r.lock_by = some w2)) = none := by
      rw [List.find?_eq_none]
      intro r hr
      simp only [decide_eq_true_eq, not_and]
      intro hrid hrlock
      have hown := (hall r hr (hid ▸ hrid)).2
      rw [hown] at hrlock
      exact hw (Option.some.inj hrlock).symm
    simp only [fetch_next]
    rw [h1, h2]
  · intro db jobId w w'
    unfold claimUpdate
    rw [List.map_map]
    apply List.map_congr_left
    intro j _
    show claimRow jobId w' (claimRow jobId w j) = claimRow jobId w j
    by_cases h : j.id = jobId ∧ j.status = "Pending" ∧ j.lock_by = none
    · unfold claimRow
      rw [if_pos h, if_neg]
      rintro ⟨_, hstat, _⟩
      have hRP : ("Running" : String) ≠ "Pending" := by decide
      exact hRP hstat
    · unfold claimRow
      rw [if_neg h, if_neg h]

/-- Witness for C2 (amended): with the table left by worker `"A"`'s
successful claim of `jobPending`, a claim attempt by worker `"B"` on
the same id leaves the table unchanged and yields 'nothing claimed'. -/
theorem C2_claim_once_witness :
    fetch_next [{ jobPending with status := "Running", lock_by := some "A" }]
        "B" (some jobPending) =
      ([{ jobPending with status := "Running", lock_by := some "A" }], none) :=
  C2_claim_once.2.1 _ "j1" "A" "B" jobPending (by decide) (by decide)
    (by decide)

/-- Claim C6: for every job row whose `lock_by` differs from the calling
worker id, `ack`, `kill` and `retry` match zero rows: the table is left
completely unchanged (and the operations return without error). -/
theorem C6_ownership_noop (db : List JobRow) (workerId jobId : String)
    (now : Int)
    (h : ∀ j ∈ db, j.id = jobId → j.lock_by ≠ some workerId) :
    ack db workerId jobId now = db ∧ kill db workerId jobId now = db ∧
      retry db workerId jobId = db := by
  refine ⟨?_, ?_, ?_⟩
  · unfold ack
    have hfix : ∀ j ∈ db, ackRow workerId jobId now j = id j := by
      intro j hj
      show ackRow workerId jobId now j = j
      unfold ackRow
      rw [if_neg]
      rintro ⟨hjid, hjlock⟩
      exact h j hj hjid hjlock
    rw [List.map_congr_left hfix, List.map_id]
  · unfold kill
    have hfix : ∀ j ∈ db, killRow workerId jobId now j = id j := by
      intro j hj
      show killRow workerId jobId now j = j
      unfold killRow
      rw [if_neg]
      rintro ⟨hjid, hjlock⟩
      exact h j hj hjid hjlock
    rw [List.map_congr_left hfix, List.map_id]
  · unfold retry
    have hfix : ∀ j ∈ db, retryRow workerId jobId j = id j := by
      intro j hj
      show retryRow workerId jobId j = j
      unfold retryRow
      rw [if_neg]
      rintro ⟨hjid, hjlock⟩
      exact h j hj hjid hjlock
    rw [List.map_congr_left hfix, List.map_id]

/-- Witness for C6: on a table holding one Running job locked by worker
`"other"`, `ack`, `kill` and `retry` called by worker `"w1"` all leave
the table unchanged. -/
theorem C6_ownership_noop_witness :
    ack [jobOther] "w1" "j6" 999 = [jobOther] ∧
      kill [jobOther] "w1" "j6" 999 = [jobOther] ∧
      retry [jobOther] "w1" "j6" = [jobOther] :=
  C6_ownership_noop [jobOther] "w1" "j6" 999 (by decide)

/-- Claim C7: `reschedule(job, wait)` sets the job's status to Failed,
clears `lock_by`, `lock_at` and `done_at`, and sets
`run_at = now + wait`; such a row fails the candidate-selection
predicate at every poll instant `now' ≤ now + wait`, and (given unique
rowids) the candidate-selection query never returns it before `run_at`
elapses. -/
theorem C7_reschedule_backoff (db : List JobRow) (jobId : String) (now : Int)
    (wait : Nat) :
    (∀ j : JobRow, j.id = jobId →
      rescheduleRow jobId now wait j =
        { j with status := "Failed", done_at := none, lock_by := none,
                 lock_at := none, run_at := now + wait }) ∧
    (∀ (T : String) (now' : Int) (j : JobRow), j.id = jobId →
      now' ≤ now + wait →
      fetchPredicate now' T (rescheduleRow jobId now wait j) = false) ∧
    (∀ (T : String) (now' : Int) (j : JobRow),
      (db.map (fun x => x.rowid)).Nodup → j.id = jobId →
      now' ≤ now + wait →
      selectCandidate (reschedule db jobId now wait) now' T ≠
        some (rescheduleRow jobId now wait j)) := by
  have hset : ∀ j : JobRow, j.id = jobId →
      rescheduleRow jobId now wait j =
        { j with status := "Failed", done_at := none, lock_by := none,
                 lock_at := none, run_at := now + wait } := by
    intro j hid
    unfold rescheduleRow
    rw [if_pos hid]
  have hpred : ∀ (T : String) (now' : Int) (j : JobRow), j.id = jobId →
      now' ≤ now + wait →
      fetchPredicate now' T (rescheduleRow jobId now wait j) = false := by
    intro T now' j hid hle
    rw [hset j hid]
    unfold fetchPredicate
    simp only [decide_eq_false_iff_not]
    rintro (hstat | ⟨_, _, hrun, _⟩)
    · exact (by decide : ("Failed" : String) ≠ "Pending") hstat
    · have hrun2 : now + (wait : Int) < now' := hrun
      omega
  refine ⟨hset, hpred, ?_⟩
  intro T now' j hnodup hid hle hEq
  have hrowid : (reschedule db jobId now wait).map (fun x => x.rowid) =
      db.map (fun x => x.rowid) := by
    unfold reschedule
    rw [List.map_map]
    apply List.map_congr_left
    intro a _
    show (rescheduleRow jobId now wait a).rowid = a.rowid
    unfold rescheduleRow
    split <;> rfl
  have hsound := selectCandidate_sound (hrowid ▸ hnodup) hEq
  rw [hpred T now' j hid hle] at hsound
  exact Bool.false_ne_true hsound.2

/-- Witness for C7: rescheduling the Running job `jobOwned` at
`now = 1000` with `wait = 100` yields the expected Failed row, and at
poll instant 1050 (before `run_at = 1100` elapses) the row fails the
candidate predicate and is not returned by candidate selection. -/
theorem C7_reschedule_backoff_witness :
    rescheduleRow "j9" 1000 100 jobOwned =
      { jobOwned with status := "Failed", done_at := none, lock_by := none,
                      lock_at := none, run_at := 1100 } ∧
    fetchPredicate 1050 "email" (rescheduleRow "j9" 1000 100 jobOwned) =
      false ∧
    selectCandidate (reschedule [jobOwned] "j9" 1000 100) 1050 "email" ≠
      some (rescheduleRow "j9" 1000 100 jobOwned) :=
  ⟨(C7_reschedule_backoff [jobOwned] "j9" 1000 100).1 jobOwned (by decide),
   (C7_reschedule_backoff [jobOwned] "j9" 1000 100).2.1 "email" 1050 jobOwned
     (by decide) (by decide),
   (C7_reschedule_backoff [jobOwned] "j9" 1000 100).2.2 "email" 1050 jobOwned
     (by decide) (by decide) (by decide)⟩

/-- Claim C8 (amended): `len` returns the number of jobs with
status = Pending regardless of their job_type — every Pending job
contributes one to the count whatever its job_type, and a job in any
other status contributes nothing. -/
theorem C8_len_pending_any_type (db : List JobRow) (j : JobRow) :
    (j.status = "Pending" → len (j :: db) = len db + 1) ∧
    (j.status ≠ "Pending" → len (j :: db) = len db) := by
  constructor
  · intro h
    unfold len
    rw [List.filter_cons, if_pos (by simp [h])]
    rfl
  · intro h
    unfold len
    rw [List.filter_cons, if_neg (by simp [h])]

/-- Witness for C8 (amended): the Pending `"sms"` job raises the count
of an `"email"` storage's `len` by one, and the Running job `jobOwned`
leaves it unchanged. -/
theorem C8_len_pending_any_type_witness :
    len [jobSmsPending] = len [] + 1 ∧ len [jobOwned] = len [] :=
  ⟨(C8_len_pending_any_type [] jobSmsPending).1 (by decide),
   (C8_len_pending_any_type [] jobOwned).2 (by decide)⟩

/-- Claim C3: the orphan-reclaim sweep (liveness timeout five minutes,
i.e. cutoff `now - 300` seconds) resets a Running job to Pending —
clearing `done_at`, `lock_by`, `lock_at`, setting `last_error` to the
abandonment marker and not touching `attempts` — if and only if the
owning worker of the given type has `last_seen` strictly older than
`now - 300`, up to the `count` bound; a Running job whose owner was
seen one minute ago is left unchanged.  Over any table with unique job
ids: (1) every reclaimed id is that of a Running job owned by a worker
of the given type with `last_seen < now - 300`; (2) when the eligible
join rows fit within `count`, every Running job of the given type with
such a stale owner is reset; (3) the reset row's fields are exactly as
claimed; (4) at most `count` ids are reclaimed; (5) a job whose owner
rows all have `last_seen ≥ now - 300` is not reclaimed and survives
unchanged. -/
theorem C3_orphan_reclaim (db : List JobRow) (workers : List WorkerRow)
    (now : Int) (T : String) (count : Nat)
    (hids : (db.map (fun j => j.id)).Nodup) :
    (∀ j ∈ db, j.id ∈ reclaimIds db workers now T count →
      j.status = "Running" ∧ ∃ w ∈ workers, j.lock_by = some w.id ∧
        w.last_seen < now - 300 ∧ w.worker_type = T) ∧
    ((orphanJoin db workers (now - 300) T).length ≤ count →
      ∀ j ∈ db, ∀ w ∈ workers, j.job_type = T → j.status = "Running" →
        j.lock_by = some w.id → w.last_seen < now - 300 →
        w.worker_type = T →
        resetOrphan j ∈ heartbeatRenqueueOrphaned db workers now T count) ∧
    (∀ j : JobRow, (resetOrphan j).status = "Pending" ∧
      (resetOrphan j).done_at = none ∧ (resetOrphan j).lock_by = none ∧
      (resetOrphan j).lock_at = none ∧
      (resetOrphan j).last_error = some "Job was abandoned" ∧
      (resetOrphan j).attempts = j.attempts) ∧
    (reclaimIds db workers now T count).length ≤ count ∧
    (∀ j ∈ db, ∀ wid : String, j.lock_by = some wid →
      (∀ w ∈ workers, w.id = wid → now - 300 ≤ w.last_seen) →
      j.id ∉ reclaimIds db workers now T count ∧
      j ∈ heartbeatRenqueueOrphaned db workers now T count) := by
  have hdecomp : ∀ {x : String}, x ∈ reclaimIds db workers now T count →
      ∃ p : JobRow × WorkerRow,
        p ∈ orphanJoin db workers (now - 300) T ∧ p.1.id = x := by
    intro x hx
    unfold reclaimIds at hx
    obtain ⟨p, hp, hpx⟩ := List.mem_map.mp hx
    exact ⟨p, mem_sortBy.mp (List.mem_of_mem_take hp), hpx⟩
  have helig : ∀ {p : JobRow × WorkerRow},
      p ∈ orphanJoin db workers (now - 300) T →
      p.1 ∈ db ∧ p.2 ∈ workers ∧ p.1.lock_by = some p.2.id ∧
        p.1.status = "Running" ∧ p.2.last_seen < now - 300 ∧
        p.2.worker_type = T := by
    intro p hp
    obtain ⟨hmem, hcond⟩ := List.mem_filter.mp hp
    simp only [orphanEligible, decide_eq_true_eq] at hcond
    obtain ⟨h1, h2, h3, h4⟩ := hcond
    obtain ⟨j, w⟩ := p
    obtain ⟨hjdb, hwdb⟩ := mem_joinRows.mp hmem
    exact ⟨hjdb, hwdb, h1, h2, h3, h4⟩
  refine ⟨?_, ?_, ?_, ?_, ?_⟩
  · intro j hj hjid
    obtain ⟨p, hp, hpid⟩ := hdecomp hjid
    obtain ⟨hjdb, hwdb, h1, h2, h3, h4⟩ := helig hp
    have hpj : p.1 = j := List.inj_on_of_nodup_map hids hjdb hj hpid
    exact ⟨hpj ▸ h2, p.2, hwdb, hpj ▸ h1, h3, h4⟩
  · intro hlen j hj w hw _ hstat hlock hseen hwt
    have hpair : (j, w) ∈ orphanJoin db workers (now - 300) T := by
      rw [orphanJoin, List.mem_filter]
      refine ⟨mem_joinRows.mpr ⟨hj, hw⟩, ?_⟩
      simp only [orphanEligible, decide_eq_true_eq]
      exact ⟨hlock, hstat, hseen, hwt⟩
    have htake : (j, w) ∈
        (sortBy (fun a b => lockAtLe a.1.lock_at b.1.lock_at)
          (orphanJoin db workers (now - 300) T)).take count := by
      rw [List.take_of_length_le]
      · exact mem_sortBy.mpr hpair
      · rw [length_sortBy]
        exact hlen
    have hid2 : j.id ∈ reclaimIds db workers now T count := by
      unfold reclaimIds
      exact List.mem_map.mpr ⟨(j, w), htake, rfl⟩
    unfold heartbeatRenqueueOrphaned
    exact List.mem_map.mpr ⟨j, hj, by rw [if_pos hid2]⟩
  · exact fun j => ⟨rfl, rfl, rfl, rfl, rfl, rfl⟩
  · unfold reclaimIds
    rw [List.length_map, List.length_take]
    exact min_le_left _ _
  · intro j hj wid hlock hfresh
    have hnotin : j.id ∉ reclaimIds db workers now T count := by
      intro hjid
      obtain ⟨p, hp, hpid⟩ := hdecomp hjid
      obtain ⟨hjdb, hwdb, h1, h2, h3, h4⟩ := helig hp
      have hpj : p.1 = j := List.inj_on_of_nodup_map hids hjdb hj hpid
      rw [hpj, hlock] at h1
      have hwid : p.2.id = wid := (Option.some.inj h1).symm
      have := hfresh p.2 hwdb hwid
      omega
    refine ⟨hnotin, ?_⟩
    unfold heartbeatRenqueueOrphaned
    exact List.mem_map.mpr ⟨j, hj, by rw [if_neg hnotin]⟩

/-- Witness for C3: at `now = 1000` (cutoff 700), in a table holding
`jobOrphan` (locked by `workerStale`, last seen at 100) and `jobFresh`
(locked by `workerFresh`, last seen at 940 = one minute before now),
the sweep resets `jobOrphan` and leaves `jobFresh` untouched. -/
theorem C3_orphan_reclaim_witness :
    resetOrphan jobOrphan ∈
      heartbeatRenqueueOrphaned [jobOrphan, jobFresh]
        [workerStale, workerFresh] 1000 "email" 5 ∧
    jobFresh.id ∉ reclaimIds [jobOrphan, jobFresh]
        [workerStale, workerFresh] 1000 "email" 5 ∧
    jobFresh ∈ heartbeatRenqueueOrphaned [jobOrphan, jobFresh]
        [workerStale, workerFresh] 1000 "email" 5 :=
  ⟨(C3_orphan_reclaim [jobOrphan, jobFresh] [workerStale, workerFresh]
        1000 "email" 5 (by decide)).2.1 (by decide) jobOrphan (by decide)
      workerStale (by decide) (by decide) (by decide) (by decide)
      (by decide) (by decide),
   ((C3_orphan_reclaim [jobOrphan, jobFresh] [workerStale, workerFresh]
        1000 "email" 5 (by decide)).2.2.2.2 jobFresh (by decide) "wFresh"
      (by decide) (by decide)).1,
   ((C3_orphan_reclaim [jobOrphan, jobFresh] [workerStale, workerFresh]
        1000 "email" 5 (by decide)).2.2.2.2 jobFresh (by decide) "wFresh"
      (by decide) (by decide)).2⟩

end Apalis
